import Mathlib

/-
Shallow embedding of scripts/convert_icon.py.

The script converts a source image into a fixed set of application-icon
PNGs.  Pipeline (function main): parse arguments (positional src path,
boolean switch named rounded, integer radius defaulting to 0); if the
source path does not exist, print a diagnostic and exit with code 1;
otherwise create the output directory, load the image as RGBA, center it
on a 1024 by 1024 transparent canvas via Image.thumbnail plus paste with
the image itself as mask, optionally apply a rounded-corner alpha mask,
and save icon.png plus one file per size in SIZES, re-deriving the corner
radius per size.

Pillow operations are modelled functionally: an image is a pair of
dimensions together with a total pixel function; resampling content
(LANCZOS) is an uninterpreted kernel parameter, while every size,
offset, radius and blending computation is embedded exactly.  IEEE
double arithmetic appears only in the expression int(s * 0.2); for the
power-of-two sizes the script uses, that product is exact in double
precision and is embedded as exact integer arithmetic (pyIntMul02).
-/

namespace ConvertIcon

/-- An RGBA pixel; each channel is a byte value (0..255). -/
structure Pixel where
  r : Nat
  g : Nat
  b : Nat
  a : Nat
deriving DecidableEq, Repr

/-- A Pillow RGBA image: dimensions plus a total pixel function.  Only
indices i < width, j < height are meaningful. -/
structure Img where
  width : Nat
  height : Nat
  px : Nat → Nat → Pixel

/-- Pillow's byte product a * b / 255 with rounding, from the C macro
MULDIV255 (tmp = a * b + 128; ((tmp >> 8) + tmp) >> 8). -/
def muldiv255 (a b : Nat) : Nat :=
  ((a * b + 128) / 256 + (a * b + 128)) / 256

/-- Pillow's BLEND macro for paste with an 8-bit mask value m:
dst * (255 - m) / 255 + src * m / 255, both via muldiv255. -/
def blendChan (d s m : Nat) : Nat :=
  muldiv255 d (255 - m) + muldiv255 s m

/-- canvas.paste(src, (x, y), src): composite src onto dst with the
upper-left corner at (x, y), using the alpha band of src as the mask
(Pillow blends every band, alpha included, with the BLEND macro). -/
def pasteMask (dst src : Img) (x y : Nat) : Img :=
  { dst with
    px := fun i j =>
      if x ≤ i ∧ i < x + src.width ∧ y ≤ j ∧ j < y + src.height then
        let s := src.px (i - x) (j - y)
        let d := dst.px i j
        let m := s.a
        ⟨blendChan d.r s.r m, blendChan d.g s.g m,
         blendChan d.b s.b m, blendChan d.a s.a m⟩
      else dst.px i j }

/-- The content of a resized image: an uninterpreted resampling kernel
standing for Pillow's LANCZOS filter.  Arguments: source image, target
width, target height, pixel column, pixel row. -/
def Resample : Type := Img → Nat → Nat → Nat → Nat → Pixel

/-- im.resize((w, h), Image.LANCZOS): the dimensions become (w, h); the
pixel content is produced by the resampling kernel. -/
def resize (K : Resample) (im : Img) (w h : Nat) : Img :=
  ⟨w, h, fun i j => K im w h i j⟩

/-- Pillow's round_aspect helper inside Image.thumbnail:
max(min(floor(number), ceil(number), key=key), 1); Python's min returns
the first argument on a key tie.  Exact rationals stand in for the
IEEE doubles of the Python source. -/
def roundAspect (number : ℚ) (key : ℚ → ℚ) : Nat :=
  (max (if key (⌊number⌋ : ℚ) ≤ key (⌈number⌉ : ℚ) then ⌊number⌋ else ⌈number⌉) 1).toNat

/-- The size computed by Image.thumbnail((1024, 1024)) when a resize is
needed (w > 1024 or h > 1024): aspect = w / h; if 1024 / 1024 >= aspect
then the width is rounded from 1024 * aspect, else the height is rounded
from 1024 / aspect; the other dimension stays 1024. -/
def thumbnailSize (w h : Nat) : Nat × Nat :=
  if (1024 : ℚ) / 1024 ≥ (w : ℚ) / (h : ℚ) then
    (roundAspect ((1024 : ℚ) * ((w : ℚ) / (h : ℚ)))
      (fun n => |(w : ℚ) / (h : ℚ) - n / 1024|), 1024)
  else
    (1024, roundAspect ((1024 : ℚ) / ((w : ℚ) / (h : ℚ)))
      (fun n => if n = 0 then 0 else |(w : ℚ) / (h : ℚ) - 1024 / n|))

/-- img.thumbnail((1024, 1024), Image.LANCZOS): returns unchanged when
both dimensions already fit (Pillow: if x >= self.width and
y >= self.height: return), else resizes to thumbnailSize. -/
def thumbnail (K : Resample) (im : Img) : Img :=
  if im.width ≤ 1024 ∧ im.height ≤ 1024 then im
  else resize K im (thumbnailSize im.width im.height).1
    (thumbnailSize im.width im.height).2

/-- Square of an integer, used by the corner-disc test below. -/
def sq (z : ℤ) : ℤ := z * z

/-- Membership of the point (i, j) in the rounded rectangle over the box
[0, 0, w, h] with corner radius rad, as drawn by
ImageDraw.rounded_rectangle([0, 0, w, h], radius=rad, fill=255): inside
the box and, in each of the four corner squares of side rad, inside the
quarter disc around that corner's center.  Pillow's rasterizer is
idealized by this exact geometric indicator. -/
def inRoundedBox (w h rad : Nat) (i j : Nat) : Bool :=
  let W : ℤ := w
  let H : ℤ := h
  let R : ℤ := rad
  let x : ℤ := i
  let y : ℤ := j
  decide (x ≤ W) && decide (y ≤ H) &&
  !(decide (x < R) && decide (y < R) && decide (sq R < sq (R - x) + sq (R - y))) &&
  !(decide (W - R < x) && decide (y < R) && decide (sq R < sq (x - (W - R)) + sq (R - y))) &&
  !(decide (x < R) && decide (H - R < y) && decide (sq R < sq (R - x) + sq (y - (H - R)))) &&
  !(decide (W - R < x) && decide (H - R < y) && decide (sq R < sq (x - (W - R)) + sq (y - (H - R))))

/-- The single-channel mask built in apply_rounded: value 255 inside the
rounded rectangle over [0, 0, w, h], 0 outside (the mask image starts
all 0 and the rounded rectangle is filled with 255). -/
def roundedMask (w h rad : Nat) (i j : Nat) : Nat :=
  if inRoundedBox w h rad i j then 255 else 0

/-- apply_rounded(im, r): for r <= 0 return im unchanged; otherwise
return a copy of im whose alpha band is replaced (putalpha) by the
rounded-rectangle mask, other bands untouched. -/
def applyRounded (im : Img) (rad : ℤ) : Img :=
  if rad ≤ 0 then im
  else
    { im with
      px := fun i j =>
        { im.px i j with a := roundedMask im.width im.height rad.toNat i j } }

/-- Replace the alpha band of an image by an arbitrary channel function
(used to state that apply_rounded overwrites, rather than multiplies
with, any pre-existing alpha). -/
def setAlpha (im : Img) (f : Nat → Nat → Nat) : Img :=
  { im with px := fun i j => { im.px i j with a := f i j } }

/-- Python's int(s * 0.2) for the sizes the script uses.  The literal
0.2 as an IEEE-754 double is 3602879701896397 / 2 ^ 54, and for the
power-of-two values of s that occur (32, 128, 256, 512, 1024) the
product s * 0.2 is exact in double precision, so truncation toward zero
is this natural-number floor division. -/
def pyIntMul02 (s : Nat) : Nat := s * 3602879701896397 / 2 ^ 54

/-- The effective corner radius used for an image of edge length s:
args.radius if args.radius > 0 else int(s * 0.2)  (lines 56 and 64). -/
def effRadius (radius : ℤ) (s : Nat) : ℤ :=
  if radius > 0 then radius else (pyIntMul02 s : ℤ)

/-- SIZES = [32, 128, 256, 512, 1024]. -/
def SIZES : List Nat := [32, 128, 256, 512, 1024]

/-- os.path.join of the two fixed components on a POSIX filesystem. -/
def outDir : String := "src-tauri" ++ "/" ++ "icons"

/-- The per-size file name, from the format string of line 66. -/
def sizedName (s : Nat) : String := Nat.repr s ++ "x" ++ Nat.repr s ++ ".png"

/-- Image.new('RGBA', (1024, 1024), (0, 0, 0, 0)): the transparent base
canvas. -/
def baseCanvas : Img := ⟨1024, 1024, fun _ _ => ⟨0, 0, 0, 0⟩⟩

/-- Line 41: x = (base_size - img.width) // 2. -/
def offsetX (img : Img) : Nat := (1024 - img.width) / 2

/-- Line 42: y = (base_size - img.height) // 2. -/
def offsetY (img : Img) : Nat := (1024 - img.height) / 2

/-- Lines 40-43: thumbnail the source, then paste it onto the base
canvas at the centering offset ((1024 - w) // 2, (1024 - h) // 2) with
the image itself as the paste mask. -/
def composited (K : Resample) (img0 : Img) : Img :=
  let img := thumbnail K img0
  pasteMask baseCanvas img (offsetX img) (offsetY img)

/-- Lines 55-57: when rounding is requested, mask the full canvas with
the effective radius at edge length 1024. -/
def finalCanvas (K : Resample) (rounded : Bool) (radius : ℤ) (img0 : Img) : Img :=
  if rounded then applyRounded (composited K img0) (effRadius radius 1024)
  else composited K img0

/-- Lines 62-65: one sized output: resize the (possibly masked) canvas
to s by s, then re-mask at the radius derived for edge length s when
rounding is requested. -/
def processSize (K : Resample) (rounded : Bool) (radius : ℤ) (canvas : Img) (s : Nat) : Img :=
  let resized := resize K canvas s s
  if rounded then applyRounded resized (effRadius radius s) else resized

/-- The ordered list of (path, image) pairs a successful run saves:
icon.png from the full canvas, then one file per size in SIZES. -/
def writesFor (K : Resample) (rounded : Bool) (radius : ℤ) (img0 : Img) :
    List (String × Img) :=
  let canvas := finalCanvas K rounded radius img0
  (outDir ++ "/" ++ "icon.png", canvas) ::
    SIZES.map (fun s => (outDir ++ "/" ++ sizedName s, processSize K rounded radius canvas s))

/-- The parsed command line: positional src, switch named rounded
(default false), integer radius (default 0). -/
structure Args where
  src : String
  rounded : Bool
  radius : ℤ

/-- The observable outcome of one invocation: exit code, lines printed
to standard output, directories created, and files written in order. -/
structure RunResult where
  exitCode : Nat
  stdout : List String
  dirsCreated : List String
  writes : List (String × Img)

/-- The whole of main, over an abstract filesystem mapping each path at
which a loadable image exists to its RGBA decoding: the existence check
with early exit (lines 26-28), then makedirs, load, composite, optional
mask, and the six saves (lines 30-68). -/
def run (K : Resample) (fs : String → Option Img) (a : Args) : RunResult :=
  match fs a.src with
  | none => ⟨1, ["Source not found: " ++ a.src], [], []⟩
  | some img0 =>
      ⟨0, ["Wrote icons to " ++ outDir], [outDir],
        writesFor K a.rounded a.radius img0⟩

/-! Helper lemmas shared by the claim theorems. -/

@[simp]
theorem applyRounded_width (im : Img) (rad : ℤ) :
    (applyRounded im rad).width = im.width := by
  unfold applyRounded; split <;> rfl

@[simp]
theorem applyRounded_height (im : Img) (rad : ℤ) :
    (applyRounded im rad).height = im.height := by
  unfold applyRounded; split <;> rfl

@[simp]
theorem resize_width (K : Resample) (im : Img) (w h : Nat) :
    (resize K im w h).width = w := rfl

@[simp]
theorem resize_height (K : Resample) (im : Img) (w h : Nat) :
    (resize K im w h).height = h := rfl

@[simp]
theorem pasteMask_width (dst src : Img) (x y : Nat) :
    (pasteMask dst src x y).width = dst.width := rfl

@[simp]
theorem pasteMask_height (dst src : Img) (x y : Nat) :
    (pasteMask dst src x y).height = dst.height := rfl

@[simp]
theorem composited_width (K : Resample) (img0 : Img) :
    (composited K img0).width = 1024 := rfl

@[simp]
theorem composited_height (K : Resample) (img0 : Img) :
    (composited K img0).height = 1024 := rfl

@[simp]
theorem finalCanvas_width (K : Resample) (ro : Bool) (rad : ℤ) (img0 : Img) :
    (finalCanvas K ro rad img0).width = 1024 := by
  unfold finalCanvas; split <;> simp

@[simp]
theorem finalCanvas_height (K : Resample) (ro : Bool) (rad : ℤ) (img0 : Img) :
    (finalCanvas K ro rad img0).height = 1024 := by
  unfold finalCanvas; split <;> simp

@[simp]
theorem processSize_width (K : Resample) (ro : Bool) (rad : ℤ) (c : Img) (s : Nat) :
    (processSize K ro rad c s).width = s := by
  unfold processSize; split <;> simp

@[simp]
theorem processSize_height (K : Resample) (ro : Bool) (rad : ℤ) (c : Img) (s : Nat) :
    (processSize K ro rad c s).height = s := by
  unfold processSize; split <;> simp

theorem roundAspect_le (q : ℚ) (key : ℚ → ℚ) {B : ℕ} (hB : 1 ≤ B)
    (hq : q ≤ (B : ℚ)) : roundAspect q key ≤ B := by
  unfold roundAspect
  have hc : ⌈q⌉ ≤ (B : ℤ) := Int.ceil_le.mpr (by exact_mod_cast hq)
  have hf : ⌊q⌋ ≤ (B : ℤ) := le_trans (Int.floor_le_ceil q) hc
  have hp : (if key (⌊q⌋ : ℚ) ≤ key (⌈q⌉ : ℚ) then ⌊q⌋ else ⌈q⌉) ≤ (B : ℤ) := by
    split <;> assumption
  have hm : max (if key (⌊q⌋ : ℚ) ≤ key (⌈q⌉ : ℚ) then ⌊q⌋ else ⌈q⌉) 1 ≤ (B : ℤ) :=
    max_le hp (by exact_mod_cast hB)
  exact Int.toNat_le.mpr hm

theorem roundAspect_close (q : ℚ) (key : ℚ → ℚ) (h0 : 0 ≤ q) :
    |(roundAspect q key : ℚ) - q| ≤ 1 := by
  unfold roundAspect
  set p : ℤ := if key (⌊q⌋ : ℚ) ≤ key (⌈q⌉ : ℚ) then ⌊q⌋ else ⌈q⌉ with hpdef
  have hpl : q - 1 ≤ (p : ℚ) := by
    rw [hpdef]; split
    · have := Int.sub_one_lt_floor q; linarith
    · have := Int.le_ceil q; linarith
  have hpu : (p : ℚ) ≤ q + 1 := by
    rw [hpdef]; split
    · have := Int.floor_le q; linarith
    · have := Int.ceil_lt_add_one q; linarith
  have hm0 : (0 : ℤ) ≤ max p 1 := le_trans (by omega) (le_max_right p 1)
  have hcast : (((max p 1).toNat : ℕ) : ℚ) = max (p : ℚ) 1 := by
    rw [← Int.cast_natCast (R := ℚ), Int.toNat_of_nonneg hm0, Int.cast_max]
    norm_num
  rw [hcast, abs_le]
  constructor
  · have := le_max_left (p : ℚ) 1; linarith
  · have h1q : (1 : ℚ) ≤ q + 1 := by linarith
    have := max_le hpu h1q; linarith

theorem thumbnailSize_spec {w h : Nat} (hw : 0 < w) (hh : 0 < h)
    (hbig : 1024 < w ∨ 1024 < h) :
    (thumbnailSize w h).1 ≤ 1024 ∧ (thumbnailSize w h).2 ≤ 1024 ∧
    (thumbnailSize w h).1 ≤ w ∧ (thumbnailSize w h).2 ≤ h ∧
    |((thumbnailSize w h).1 : ℚ) * (h : ℚ) - ((thumbnailSize w h).2 : ℚ) * (w : ℚ)|
      ≤ (max w h : ℚ) := by
  have hwq : (0 : ℚ) < w := by exact_mod_cast hw
  have hhq : (0 : ℚ) < h := by exact_mod_cast hh
  unfold thumbnailSize
  by_cases hcond : (1024 : ℚ) / 1024 ≥ (w : ℚ) / (h : ℚ)
  · rw [if_pos hcond]
    dsimp only
    have haspect : (w : ℚ) / (h : ℚ) ≤ 1 := by
      have h1 : (1024 : ℚ) / 1024 = 1 := by norm_num
      rw [h1] at hcond; exact hcond
    have hwh : w ≤ h := by
      have := (div_le_one hhq).mp haspect
      exact_mod_cast this
    have hhibig : 1024 < h := by omega
    have hhb : (1024 : ℚ) < h := by exact_mod_cast hhibig
    have hq0 : (0 : ℚ) ≤ 1024 * ((w : ℚ) / (h : ℚ)) := by positivity
    have hqle : (1024 : ℚ) * ((w : ℚ) / (h : ℚ)) ≤ ((1024 : ℕ) : ℚ) := by
      push_cast
      nlinarith [haspect]
    have hqlew : (1024 : ℚ) * ((w : ℚ) / (h : ℚ)) ≤ (w : ℚ) := by
      rw [mul_div_assoc', div_le_iff₀ hhq]
      nlinarith [hwq.le, hhb]
    refine ⟨?_, le_refl _, ?_, by exact_mod_cast hhb.le, ?_⟩
    · exact roundAspect_le _ _ (by norm_num) hqle
    · exact roundAspect_le _ _ hw hqlew
    · have hclose := roundAspect_close (1024 * ((w : ℚ) / (h : ℚ)))
        (fun n => |(w : ℚ) / (h : ℚ) - n / 1024|) hq0
      set ra : ℕ := roundAspect (1024 * ((w : ℚ) / (h : ℚ)))
        (fun n => |(w : ℚ) / (h : ℚ) - n / 1024|) with hra
      push_cast
      have hmul : (1024 : ℚ) * ((w : ℚ) / (h : ℚ)) * h = 1024 * w := by
        field_simp
      have key1 : |(ra : ℚ) * h - 1024 * w| ≤ h := by
        have heq : (ra : ℚ) * h - 1024 * w =
            ((ra : ℚ) - 1024 * ((w : ℚ) / (h : ℚ))) * h := by
          rw [sub_mul, hmul]
        rw [heq, abs_mul, abs_of_nonneg hhq.le]
        nlinarith [abs_nonneg ((ra : ℚ) - 1024 * ((w : ℚ) / (h : ℚ)))]
      calc |(ra : ℚ) * h - 1024 * w| ≤ (h : ℚ) := key1
        _ ≤ max (w : ℚ) (h : ℚ) := le_max_right _ _
  · rw [if_neg hcond]
    dsimp only
    have haspect : (1 : ℚ) < (w : ℚ) / (h : ℚ) := by
      push_neg at hcond
      have h1 : (1024 : ℚ) / 1024 = 1 := by norm_num
      rw [h1] at hcond; exact hcond
    have hwh : h < w := by
      have := (one_lt_div hhq).mp haspect
      exact_mod_cast this
    have hwbig : 1024 < w := by omega
    have hwb : (1024 : ℚ) < w := by exact_mod_cast hwbig
    have hdiv : (1024 : ℚ) / ((w : ℚ) / (h : ℚ)) = 1024 * h / w := by
      rw [div_div_eq_mul_div]
    have hq0 : (0 : ℚ) ≤ 1024 * (h : ℚ) / w := by positivity
    have hwhq : (h : ℚ) < (w : ℚ) := by exact_mod_cast hwh
    have hqle : (1024 : ℚ) * h / w ≤ ((1024 : ℕ) : ℚ) := by
      push_cast
      rw [div_le_iff₀ hwq]
      nlinarith [hwhq]
    have hqleh : (1024 : ℚ) * h / w ≤ (h : ℚ) := by
      rw [div_le_iff₀ hwq]
      nlinarith [hhq.le, hwb]
    rw [hdiv]
    refine ⟨le_refl _, ?_, by exact_mod_cast hwb.le, ?_, ?_⟩
    · exact roundAspect_le _ _ (by norm_num) hqle
    · exact roundAspect_le _ _ hh hqleh
    · have hclose := roundAspect_close (1024 * (h : ℚ) / w)
        (fun n => if n = 0 then 0 else |(w : ℚ) / (h : ℚ) - 1024 / n|) hq0
      set ra : ℕ := roundAspect (1024 * (h : ℚ) / w)
        (fun n => if n = 0 then 0 else |(w : ℚ) / (h : ℚ) - 1024 / n|) with hra
      push_cast
      have hmul : (1024 : ℚ) * (h : ℚ) / w * w = 1024 * h := by
        field_simp
      have key1 : |(1024 : ℚ) * h - (ra : ℚ) * w| ≤ w := by
        have heq : (1024 : ℚ) * h - (ra : ℚ) * w =
            -(((ra : ℚ) - 1024 * (h : ℚ) / w) * w) := by
          rw [sub_mul, hmul]; ring
        rw [heq, abs_neg, abs_mul, abs_of_nonneg hwq.le]
        nlinarith [abs_nonneg ((ra : ℚ) - 1024 * (h : ℚ) / w)]
      calc |(1024 : ℚ) * h - (ra : ℚ) * w| ≤ (w : ℚ) := key1
        _ ≤ max (w : ℚ) (h : ℚ) := le_max_left _ _

theorem thumbnail_spec (K : Resample) (im : Img) (hw : 0 < im.width)
    (hh : 0 < im.height) :
    (thumbnail K im).width ≤ 1024 ∧ (thumbnail K im).height ≤ 1024 ∧
    (thumbnail K im).width ≤ im.width ∧ (thumbnail K im).height ≤ im.height ∧
    (im.width ≤ 1024 ∧ im.height ≤ 1024 → thumbnail K im = im) ∧
    (¬(im.width ≤ 1024 ∧ im.height ≤ 1024) →
      |((thumbnail K im).width : ℚ) * (im.height : ℚ) -
        ((thumbnail K im).height : ℚ) * (im.width : ℚ)|
        ≤ (max im.width im.height : ℚ)) := by
  unfold thumbnail
  by_cases hsmall : im.width ≤ 1024 ∧ im.height ≤ 1024
  · rw [if_pos hsmall]
    exact ⟨hsmall.1, hsmall.2, le_refl _, le_refl _, fun _ => rfl,
      fun hc => absurd hsmall hc⟩
  · rw [if_neg hsmall]
    have hbig : 1024 < im.width ∨ 1024 < im.height := by omega
    obtain ⟨h1, h2, h3, h4, h5⟩ := thumbnailSize_spec hw hh hbig
    exact ⟨h1, h2, h3, h4, fun hs => absurd hs hsmall, fun _ => h5⟩

theorem blendChan_zero (s m : Nat) : blendChan 0 s m = muldiv255 s m := by
  unfold blendChan muldiv255
  norm_num

theorem pasteMask_base_px (src : Img) (x y i j : Nat) :
    ((x ≤ i ∧ i < x + src.width ∧ y ≤ j ∧ j < y + src.height) →
      (pasteMask baseCanvas src x y).px i j =
        ⟨muldiv255 (src.px (i - x) (j - y)).r (src.px (i - x) (j - y)).a,
         muldiv255 (src.px (i - x) (j - y)).g (src.px (i - x) (j - y)).a,
         muldiv255 (src.px (i - x) (j - y)).b (src.px (i - x) (j - y)).a,
         muldiv255 (src.px (i - x) (j - y)).a (src.px (i - x) (j - y)).a⟩) ∧
    (¬(x ≤ i ∧ i < x + src.width ∧ y ≤ j ∧ j < y + src.height) →
      (pasteMask baseCanvas src x y).px i j = ⟨0, 0, 0, 0⟩) := by
  constructor
  · intro hin
    show (if x ≤ i ∧ i < x + src.width ∧ y ≤ j ∧ j < y + src.height then _ else _) = _
    rw [if_pos hin]
    show Pixel.mk (blendChan (0 : Nat) _ _) (blendChan (0 : Nat) _ _)
        (blendChan (0 : Nat) _ _) (blendChan (0 : Nat) _ _) = _
    rw [blendChan_zero, blendChan_zero, blendChan_zero, blendChan_zero]
  · intro hout
    show (if x ≤ i ∧ i < x + src.width ∧ y ≤ j ∧ j < y + src.height then _ else _) = _
    rw [if_neg hout]
    rfl

theorem effRadius_nonpos (rad : ℤ) (h : rad ≤ 0) (s : Nat) :
    effRadius rad s = effRadius 0 s := by
  unfold effRadius
  rw [if_neg (by omega), if_neg (by omega)]

theorem effRadius_pos (rad : ℤ) (h : 0 < rad) (s : Nat) :
    effRadius rad s = rad := by
  unfold effRadius
  rw [if_pos h]

/-! Claim theorems. -/

/-- C1: when the positional source path does not exist, the run exits
with code 1, prints one line containing the text Source not found, and
neither writes a file nor creates a directory. -/
theorem c1_missing_source (K : Resample) (fs : String → Option Img) (a : Args)
    (h : fs a.src = none) :
    (run K fs a).exitCode = 1 ∧
    (∃ t, (run K fs a).stdout = ["Source not found" ++ t]) ∧
    (run K fs a).writes = [] ∧
    (run K fs a).dirsCreated = [] := by
  unfold run
  rw [h]
  refine ⟨rfl, ⟨": " ++ a.src, ?_⟩, rfl, rfl⟩
  have : "Source not found: " = "Source not found" ++ ": " := rfl
  rw [this, String.append_assoc]

/-- Witness for C1 at the concrete invocation of the spec's example. -/
theorem c1_missing_source_witness :
    (run (fun _ _ _ _ _ => ⟨0, 0, 0, 0⟩) (fun _ => none)
        ⟨"./missing.png", false, 0⟩).exitCode = 1 ∧
    (∃ t, (run (fun _ _ _ _ _ => ⟨0, 0, 0, 0⟩) (fun _ => none)
        ⟨"./missing.png", false, 0⟩).stdout = ["Source not found" ++ t]) ∧
    (run (fun _ _ _ _ _ => ⟨0, 0, 0, 0⟩) (fun _ => none)
        ⟨"./missing.png", false, 0⟩).writes = [] ∧
    (run (fun _ _ _ _ _ => ⟨0, 0, 0, 0⟩) (fun _ => none)
        ⟨"./missing.png", false, 0⟩).dirsCreated = [] :=
  c1_missing_source (fun _ _ _ _ _ => ⟨0, 0, 0, 0⟩) (fun _ => none)
    ⟨"./missing.png", false, 0⟩ rfl

/-- C2 counterexample: with the switch named rounded set and radius 0,
the radius the program derives for edge length 1024 is 204
(Python truncation of the double product 1024 * 0.2), not 205 as the
claim's round(0.2 x 1024) asserts. -/
theorem c2_auto_radius_counterexample :
    effRadius 0 1024 = 204 ∧ (204 : ℤ) ≠ 205 := by decide

/-- C2 amended: with rounding requested and radius 0 (or unset), the
radius applied at edge length s is int(s * 0.2) with Python int
truncation of the IEEE double product; in particular 102 at 512 and
204 (not 205) at 1024, and this radius is what both the full-canvas
mask and each sized output use. -/
theorem c2_auto_radius_truncated (K : Resample) (img0 c : Img) (s : Nat) :
    effRadius 0 s = (pyIntMul02 s : ℤ) ∧
    effRadius 0 512 = 102 ∧
    effRadius 0 1024 = 204 ∧
    finalCanvas K true 0 img0 = applyRounded (composited K img0) (effRadius 0 1024) ∧
    processSize K true 0 c s = applyRounded (resize K c s s) (effRadius 0 s) := by
  refine ⟨by unfold effRadius; rw [if_neg (by omega)], by decide, by decide, rfl, rfl⟩

/-- C3: a successful run creates exactly the directory src-tauri/icons
and writes exactly six files, in order icon.png, 32x32.png, 128x128.png,
256x256.png, 512x512.png, 1024x1024.png, all inside that directory. -/
theorem c3_six_fixed_outputs (K : Resample) (fs : String → Option Img) (a : Args)
    (img0 : Img) (h : fs a.src = some img0) :
    (run K fs a).writes.map Prod.fst =
      ["src-tauri/icons/icon.png", "src-tauri/icons/32x32.png",
       "src-tauri/icons/128x128.png", "src-tauri/icons/256x256.png",
       "src-tauri/icons/512x512.png", "src-tauri/icons/1024x1024.png"] ∧
    (run K fs a).writes.length = 6 ∧
    (run K fs a).dirsCreated = ["src-tauri/icons"] ∧
    (run K fs a).exitCode = 0 := by
  have hr : run K fs a =
      ⟨0, ["Wrote icons to " ++ outDir], [outDir], writesFor K a.rounded a.radius img0⟩ := by
    unfold run; rw [h]
  rw [hr]
  refine ⟨?_, ?_, ?_, rfl⟩
  · simp only [writesFor, SIZES, List.map_cons, List.map_nil]
    decide
  · simp [writesFor, SIZES]
  · show [outDir] = ["src-tauri/icons"]
    decide

/-- Witness for C3 at a concrete filesystem and invocation. -/
theorem c3_six_fixed_outputs_witness :
    (run (fun _ _ _ _ _ => ⟨0, 0, 0, 0⟩)
        (fun _ => some ⟨4, 4, fun _ _ => ⟨1, 2, 3, 255⟩⟩)
        ⟨"a.png", false, 0⟩).writes.map Prod.fst =
      ["src-tauri/icons/icon.png", "src-tauri/icons/32x32.png",
       "src-tauri/icons/128x128.png", "src-tauri/icons/256x256.png",
       "src-tauri/icons/512x512.png", "src-tauri/icons/1024x1024.png"] ∧
    (run (fun _ _ _ _ _ => ⟨0, 0, 0, 0⟩)
        (fun _ => some ⟨4, 4, fun _ _ => ⟨1, 2, 3, 255⟩⟩)
        ⟨"a.png", false, 0⟩).writes.length = 6 ∧
    (run (fun _ _ _ _ _ => ⟨0, 0, 0, 0⟩)
        (fun _ => some ⟨4, 4, fun _ _ => ⟨1, 2, 3, 255⟩⟩)
        ⟨"a.png", false, 0⟩).dirsCreated = ["src-tauri/icons"] ∧
    (run (fun _ _ _ _ _ => ⟨0, 0, 0, 0⟩)
        (fun _ => some ⟨4, 4, fun _ _ => ⟨1, 2, 3, 255⟩⟩)
        ⟨"a.png", false, 0⟩).exitCode = 0 :=
  c3_six_fixed_outputs (fun _ _ _ _ _ => ⟨0, 0, 0, 0⟩)
    (fun _ => some ⟨4, 4, fun _ _ => ⟨1, 2, 3, 255⟩⟩)
    ⟨"a.png", false, 0⟩ ⟨4, 4, fun _ _ => ⟨1, 2, 3, 255⟩⟩ rfl

/-- C4: the base canvas is the 1024 by 1024 fully transparent buffer;
the source is thumbnailed so both dimensions are at most 1024 and never
above the originals, with aspect ratio preserved up to the one-pixel
rounding of Pillow round_aspect; a source already fitting in 1024 by
1024 is kept at native resolution; the result is pasted at offset
((1024 - w) // 2, (1024 - h) // 2) with the source's own alpha as the
paste mask, so pixels outside the pasted region stay fully transparent
and pixels inside are the source blended over transparency by its own
alpha (in particular alpha 0 stays alpha 0). -/
theorem c4_canvas_centering (K : Resample) (img0 : Img)
    (hw : 0 < img0.width) (hh : 0 < img0.height) :
    (composited K img0).width = 1024 ∧
    (composited K img0).height = 1024 ∧
    (thumbnail K img0).width ≤ 1024 ∧
    (thumbnail K img0).height ≤ 1024 ∧
    (thumbnail K img0).width ≤ img0.width ∧
    (thumbnail K img0).height ≤ img0.height ∧
    (img0.width ≤ 1024 ∧ img0.height ≤ 1024 → thumbnail K img0 = img0) ∧
    (¬(img0.width ≤ 1024 ∧ img0.height ≤ 1024) →
      |((thumbnail K img0).width : ℚ) * (img0.height : ℚ) -
        ((thumbnail K img0).height : ℚ) * (img0.width : ℚ)|
        ≤ (max img0.width img0.height : ℚ)) ∧
    offsetX (thumbnail K img0) = (1024 - (thumbnail K img0).width) / 2 ∧
    offsetY (thumbnail K img0) = (1024 - (thumbnail K img0).height) / 2 ∧
    (∀ i j,
      ((offsetX (thumbnail K img0) ≤ i ∧
        i < offsetX (thumbnail K img0) + (thumbnail K img0).width ∧
        offsetY (thumbnail K img0) ≤ j ∧
        j < offsetY (thumbnail K img0) + (thumbnail K img0).height) →
        (composited K img0).px i j =
          ⟨muldiv255 ((thumbnail K img0).px (i - offsetX (thumbnail K img0))
                (j - offsetY (thumbnail K img0))).r
              ((thumbnail K img0).px (i - offsetX (thumbnail K img0))
                (j - offsetY (thumbnail K img0))).a,
           muldiv255 ((thumbnail K img0).px (i - offsetX (thumbnail K img0))
                (j - offsetY (thumbnail K img0))).g
              ((thumbnail K img0).px (i - offsetX (thumbnail K img0))
                (j - offsetY (thumbnail K img0))).a,
           muldiv255 ((thumbnail K img0).px (i - offsetX (thumbnail K img0))
                (j - offsetY (thumbnail K img0))).b
              ((thumbnail K img0).px (i - offsetX (thumbnail K img0))
                (j - offsetY (thumbnail K img0))).a,
           muldiv255 ((thumbnail K img0).px (i - offsetX (thumbnail K img0))
                (j - offsetY (thumbnail K img0))).a
              ((thumbnail K img0).px (i - offsetX (thumbnail K img0))
                (j - offsetY (thumbnail K img0))).a⟩) ∧
      (¬(offsetX (thumbnail K img0) ≤ i ∧
        i < offsetX (thumbnail K img0) + (thumbnail K img0).width ∧
        offsetY (thumbnail K img0) ≤ j ∧
        j < offsetY (thumbnail K img0) + (thumbnail K img0).height) →
        (composited K img0).px i j = ⟨0, 0, 0, 0⟩)) := by
  obtain ⟨h1, h2, h3, h4, h5, h6⟩ := thumbnail_spec K img0 hw hh
  refine ⟨rfl, rfl, h1, h2, h3, h4, h5, h6, rfl, rfl, fun i j => ?_⟩
  exact pasteMask_base_px (thumbnail K img0) (offsetX (thumbnail K img0))
    (offsetY (thumbnail K img0)) i j

/-- Witness for C4 at the spec's 2000 by 1000 rectangular example. -/
theorem c4_canvas_centering_witness :
    (composited (fun _ _ _ _ _ => ⟨0, 0, 0, 0⟩) ⟨2000, 1000, fun _ _ => ⟨9, 8, 7, 255⟩⟩).width = 1024 ∧
    (composited (fun _ _ _ _ _ => ⟨0, 0, 0, 0⟩) ⟨2000, 1000, fun _ _ => ⟨9, 8, 7, 255⟩⟩).height = 1024 ∧
    (thumbnail (fun _ _ _ _ _ => ⟨0, 0, 0, 0⟩) ⟨2000, 1000, fun _ _ => ⟨9, 8, 7, 255⟩⟩).width ≤ 1024 ∧
    (thumbnail (fun _ _ _ _ _ => ⟨0, 0, 0, 0⟩) ⟨2000, 1000, fun _ _ => ⟨9, 8, 7, 255⟩⟩).height ≤ 1024 ∧
    (thumbnail (fun _ _ _ _ _ => ⟨0, 0, 0, 0⟩) ⟨2000, 1000, fun _ _ => ⟨9, 8, 7, 255⟩⟩).width ≤
      (⟨2000, 1000, fun _ _ => ⟨9, 8, 7, 255⟩⟩ : Img).width ∧
    (thumbnail (fun _ _ _ _ _ => ⟨0, 0, 0, 0⟩) ⟨2000, 1000, fun _ _ => ⟨9, 8, 7, 255⟩⟩).height ≤
      (⟨2000, 1000, fun _ _ => ⟨9, 8, 7, 255⟩⟩ : Img).height ∧
    ((⟨2000, 1000, fun _ _ => ⟨9, 8, 7, 255⟩⟩ : Img).width ≤ 1024 ∧
      (⟨2000, 1000, fun _ _ => ⟨9, 8, 7, 255⟩⟩ : Img).height ≤ 1024 →
      thumbnail (fun _ _ _ _ _ => ⟨0, 0, 0, 0⟩) ⟨2000, 1000, fun _ _ => ⟨9, 8, 7, 255⟩⟩ =
        ⟨2000, 1000, fun _ _ => ⟨9, 8, 7, 255⟩⟩) ∧
    (¬((⟨2000, 1000, fun _ _ => ⟨9, 8, 7, 255⟩⟩ : Img).width ≤ 1024 ∧
        (⟨2000, 1000, fun _ _ => ⟨9, 8, 7, 255⟩⟩ : Img).height ≤ 1024) →
      |((thumbnail (fun _ _ _ _ _ => ⟨0, 0, 0, 0⟩) ⟨2000, 1000, fun _ _ => ⟨9, 8, 7, 255⟩⟩).width : ℚ) *
          ((⟨2000, 1000, fun _ _ => ⟨9, 8, 7, 255⟩⟩ : Img).height : ℚ) -
        ((thumbnail (fun _ _ _ _ _ => ⟨0, 0, 0, 0⟩) ⟨2000, 1000, fun _ _ => ⟨9, 8, 7, 255⟩⟩).height : ℚ) *
          ((⟨2000, 1000, fun _ _ => ⟨9, 8, 7, 255⟩⟩ : Img).width : ℚ)|
        ≤ (max (⟨2000, 1000, fun _ _ => ⟨9, 8, 7, 255⟩⟩ : Img).width
            (⟨2000, 1000, fun _ _ => ⟨9, 8, 7, 255⟩⟩ : Img).height : ℚ)) ∧
    offsetX (thumbnail (fun _ _ _ _ _ => ⟨0, 0, 0, 0⟩) ⟨2000, 1000, fun _ _ => ⟨9, 8, 7, 255⟩⟩) =
      (1024 - (thumbnail (fun _ _ _ _ _ => ⟨0, 0, 0, 0⟩) ⟨2000, 1000, fun _ _ => ⟨9, 8, 7, 255⟩⟩).width) / 2 ∧
    offsetY (thumbnail (fun _ _ _ _ _ => ⟨0, 0, 0, 0⟩) ⟨2000, 1000, fun _ _ => ⟨9, 8, 7, 255⟩⟩) =
      (1024 - (thumbnail (fun _ _ _ _ _ => ⟨0, 0, 0, 0⟩) ⟨2000, 1000, fun _ _ => ⟨9, 8, 7, 255⟩⟩).height) / 2 ∧
    (∀ i j,
      ((offsetX (thumbnail (fun _ _ _ _ _ => ⟨0, 0, 0, 0⟩) ⟨2000, 1000, fun _ _ => ⟨9, 8, 7, 255⟩⟩) ≤ i ∧
        i < offsetX (thumbnail (fun _ _ _ _ _ => ⟨0, 0, 0, 0⟩) ⟨2000, 1000, fun _ _ => ⟨9, 8, 7, 255⟩⟩) +
          (thumbnail (fun _ _ _ _ _ => ⟨0, 0, 0, 0⟩) ⟨2000, 1000, fun _ _ => ⟨9, 8, 7, 255⟩⟩).width ∧
        offsetY (thumbnail (fun _ _ _ _ _ => ⟨0, 0, 0, 0⟩) ⟨2000, 1000, fun _ _ => ⟨9, 8, 7, 255⟩⟩) ≤ j ∧
        j < offsetY (thumbnail (fun _ _ _ _ _ => ⟨0, 0, 0, 0⟩) ⟨2000, 1000, fun _ _ => ⟨9, 8, 7, 255⟩⟩) +
          (thumbnail (fun _ _ _ _ _ => ⟨0, 0, 0, 0⟩) ⟨2000, 1000, fun _ _ => ⟨9, 8, 7, 255⟩⟩).height) →
        (composited (fun _ _ _ _ _ => ⟨0, 0, 0, 0⟩) ⟨2000, 1000, fun _ _ => ⟨9, 8, 7, 255⟩⟩).px i j =
          ⟨muldiv255 ((thumbnail (fun _ _ _ _ _ => ⟨0, 0, 0, 0⟩) ⟨2000, 1000, fun _ _ => ⟨9, 8, 7, 255⟩⟩).px
                (i - offsetX (thumbnail (fun _ _ _ _ _ => ⟨0, 0, 0, 0⟩) ⟨2000, 1000, fun _ _ => ⟨9, 8, 7, 255⟩⟩))
                (j - offsetY (thumbnail (fun _ _ _ _ _ => ⟨0, 0, 0, 0⟩) ⟨2000, 1000, fun _ _ => ⟨9, 8, 7, 255⟩⟩))).r
              ((thumbnail (fun _ _ _ _ _ => ⟨0, 0, 0, 0⟩) ⟨2000, 1000, fun _ _ => ⟨9, 8, 7, 255⟩⟩).px
                (i - offsetX (thumbnail (fun _ _ _ _ _ => ⟨0, 0, 0, 0⟩) ⟨2000, 1000, fun _ _ => ⟨9, 8, 7, 255⟩⟩))
                (j - offsetY (thumbnail (fun _ _ _ _ _ => ⟨0, 0, 0, 0⟩) ⟨2000, 1000, fun _ _ => ⟨9, 8, 7, 255⟩⟩))).a,
           muldiv255 ((thumbnail (fun _ _ _ _ _ => ⟨0, 0, 0, 0⟩) ⟨2000, 1000, fun _ _ => ⟨9, 8, 7, 255⟩⟩).px
                (i - offsetX (thumbnail (fun _ _ _ _ _ => ⟨0, 0, 0, 0⟩) ⟨2000, 1000, fun _ _ => ⟨9, 8, 7, 255⟩⟩))
                (j - offsetY (thumbnail (fun _ _ _ _ _ => ⟨0, 0, 0, 0⟩) ⟨2000, 1000, fun _ _ => ⟨9, 8, 7, 255⟩⟩))).g
              ((thumbnail (fun _ _ _ _ _ => ⟨0, 0, 0, 0⟩) ⟨2000, 1000, fun _ _ => ⟨9, 8, 7, 255⟩⟩).px
                (i - offsetX (thumbnail (fun _ _ _ _ _ => ⟨0, 0, 0, 0⟩) ⟨2000, 1000, fun _ _ => ⟨9, 8, 7, 255⟩⟩))
                (j - offsetY (thumbnail (fun _ _ _ _ _ => ⟨0, 0, 0, 0⟩) ⟨2000, 1000, fun _ _ => ⟨9, 8, 7, 255⟩⟩))).a,
           muldiv255 ((thumbnail (fun _ _ _ _ _ => ⟨0, 0, 0, 0⟩) ⟨2000, 1000, fun _ _ => ⟨9, 8, 7, 255⟩⟩).px
                (i - offsetX (thumbnail (fun _ _ _ _ _ => ⟨0, 0, 0, 0⟩) ⟨2000, 1000, fun _ _ => ⟨9, 8, 7, 255⟩⟩))
                (j - offsetY (thumbnail (fun _ _ _ _ _ => ⟨0, 0, 0, 0⟩) ⟨2000, 1000, fun _ _ => ⟨9, 8, 7, 255⟩⟩))).b
              ((thumbnail (fun _ _ _ _ _ => ⟨0, 0, 0, 0⟩) ⟨2000, 1000, fun _ _ => ⟨9, 8, 7, 255⟩⟩).px
                (i - offsetX (thumbnail (fun _ _ _ _ _ => ⟨0, 0, 0, 0⟩) ⟨2000, 1000, fun _ _ => ⟨9, 8, 7, 255⟩⟩))
                (j - offsetY (thumbnail (fun _ _ _ _ _ => ⟨0, 0, 0, 0⟩) ⟨2000, 1000, fun _ _ => ⟨9, 8, 7, 255⟩⟩))).a,
           muldiv255 ((thumbnail (fun _ _ _ _ _ => ⟨0, 0, 0, 0⟩) ⟨2000, 1000, fun _ _ => ⟨9, 8, 7, 255⟩⟩).px
                (i - offsetX (thumbnail (fun _ _ _ _ _ => ⟨0, 0, 0, 0⟩) ⟨2000, 1000, fun _ _ => ⟨9, 8, 7, 255⟩⟩))
                (j - offsetY (thumbnail (fun _ _ _ _ _ => ⟨0, 0, 0, 0⟩) ⟨2000, 1000, fun _ _ => ⟨9, 8, 7, 255⟩⟩))).a
              ((thumbnail (fun _ _ _ _ _ => ⟨0, 0, 0, 0⟩) ⟨2000, 1000, fun _ _ => ⟨9, 8, 7, 255⟩⟩).px
                (i - offsetX (thumbnail (fun _ _ _ _ _ => ⟨0, 0, 0, 0⟩) ⟨2000, 1000, fun _ _ => ⟨9, 8, 7, 255⟩⟩))
                (j - offsetY (thumbnail (fun _ _ _ _ _ => ⟨0, 0, 0, 0⟩) ⟨2000, 1000, fun _ _ => ⟨9, 8, 7, 255⟩⟩))).a⟩) ∧
      (¬(offsetX (thumbnail (fun _ _ _ _ _ => ⟨0, 0, 0, 0⟩) ⟨2000, 1000, fun _ _ => ⟨9, 8, 7, 255⟩⟩) ≤ i ∧
        i < offsetX (thumbnail (fun _ _ _ _ _ => ⟨0, 0, 0, 0⟩) ⟨2000, 1000, fun _ _ => ⟨9, 8, 7, 255⟩⟩) +
          (thumbnail (fun _ _ _ _ _ => ⟨0, 0, 0, 0⟩) ⟨2000, 1000, fun _ _ => ⟨9, 8, 7, 255⟩⟩).width ∧
        offsetY (thumbnail (fun _ _ _ _ _ => ⟨0, 0, 0, 0⟩) ⟨2000, 1000, fun _ _ => ⟨9, 8, 7, 255⟩⟩) ≤ j ∧
        j < offsetY (thumbnail (fun _ _ _ _ _ => ⟨0, 0, 0, 0⟩) ⟨2000, 1000, fun _ _ => ⟨9, 8, 7, 255⟩⟩) +
          (thumbnail (fun _ _ _ _ _ => ⟨0, 0, 0, 0⟩) ⟨2000, 1000, fun _ _ => ⟨9, 8, 7, 255⟩⟩).height) →
        (composited (fun _ _ _ _ _ => ⟨0, 0, 0, 0⟩) ⟨2000, 1000, fun _ _ => ⟨9, 8, 7, 255⟩⟩).px i j =
          ⟨0, 0, 0, 0⟩)) :=
  c4_canvas_centering (fun _ _ _ _ _ => ⟨0, 0, 0, 0⟩)
    ⟨2000, 1000, fun _ _ => ⟨9, 8, 7, 255⟩⟩ (by decide) (by decide)

/-- C5: an explicit positive radius is reused verbatim: it is the
effective radius at every edge length, so the full 1024 canvas and
every sized output are masked with exactly that value. -/
theorem c5_explicit_radius_verbatim (K : Resample) (rad : ℤ) (h : 0 < rad)
    (img0 c : Img) (s : Nat) :
    effRadius rad s = rad ∧
    finalCanvas K true rad img0 = applyRounded (composited K img0) rad ∧
    processSize K true rad c s = applyRounded (resize K c s s) rad := by
  refine ⟨effRadius_pos rad h s, ?_, ?_⟩
  · show applyRounded (composited K img0) (effRadius rad 1024) = _
    rw [effRadius_pos rad h]
  · show applyRounded (resize K c s s) (effRadius rad s) = _
    rw [effRadius_pos rad h]

/-- Witness for C5 at radius 100 and size 512, as in the spec's
example. -/
theorem c5_explicit_radius_verbatim_witness :
    effRadius 100 512 = 100 ∧
    finalCanvas (fun _ _ _ _ _ => ⟨0, 0, 0, 0⟩) true 100 baseCanvas =
      applyRounded (composited (fun _ _ _ _ _ => ⟨0, 0, 0, 0⟩) baseCanvas) 100 ∧
    processSize (fun _ _ _ _ _ => ⟨0, 0, 0, 0⟩) true 100 baseCanvas 512 =
      applyRounded (resize (fun _ _ _ _ _ => ⟨0, 0, 0, 0⟩) baseCanvas 512 512) 100 :=
  c5_explicit_radius_verbatim (fun _ _ _ _ _ => ⟨0, 0, 0, 0⟩) 100 (by decide)
    baseCanvas baseCanvas 512

/-- C7: in a successful run, every written image is square of the
advertised edge length: icon.png is 1024 by 1024 and the file for each
size s in SIZES is s by s. -/
theorem c7_outputs_square (K : Resample) (fs : String → Option Img) (a : Args)
    (img0 : Img) (h : fs a.src = some img0) :
    (run K fs a).writes.map (fun p => (p.2.width, p.2.height)) =
      [(1024, 1024), (32, 32), (128, 128), (256, 256), (512, 512), (1024, 1024)] := by
  unfold run
  rw [h]
  simp [writesFor, SIZES]

/-- Witness for C7 at a concrete filesystem and invocation. -/
theorem c7_outputs_square_witness :
    (run (fun _ _ _ _ _ => ⟨0, 0, 0, 0⟩)
        (fun _ => some ⟨4, 4, fun _ _ => ⟨1, 2, 3, 255⟩⟩)
        ⟨"a.png", true, 7⟩).writes.map (fun p => (p.2.width, p.2.height)) =
      [(1024, 1024), (32, 32), (128, 128), (256, 256), (512, 512), (1024, 1024)] :=
  c7_outputs_square (fun _ _ _ _ _ => ⟨0, 0, 0, 0⟩)
    (fun _ => some ⟨4, 4, fun _ _ => ⟨1, 2, 3, 255⟩⟩)
    ⟨"a.png", true, 7⟩ ⟨4, 4, fun _ _ => ⟨1, 2, 3, 255⟩⟩ rfl

/-- C8: the run is deterministic and depends only on the loaded source
image and the two flags: two invocations whose filesystems give the
same image at their source paths and whose flags agree produce
identical write lists (same paths, same pixel content), prior outputs
being modelled as unconditionally overwritten. -/
theorem c8_deterministic (K : Resample) (fs1 fs2 : String → Option Img)
    (a1 a2 : Args) (hsrc : fs1 a1.src = fs2 a2.src)
    (hro : a1.rounded = a2.rounded) (hra : a1.radius = a2.radius) :
    (run K fs1 a1).writes = (run K fs2 a2).writes := by
  unfold run
  rw [hsrc, hro, hra]
  cases fs2 a2.src with
  | none => rfl
  | some img0 => rfl

/-- Witness for C8: two invocations differing in source path and
filesystem elsewhere, agreeing on the loaded image and flags. -/
theorem c8_deterministic_witness :
    (run (fun _ _ _ _ _ => ⟨0, 0, 0, 0⟩)
        (fun _ => some ⟨4, 4, fun _ _ => ⟨1, 2, 3, 255⟩⟩)
        ⟨"a.png", true, 0⟩).writes =
    (run (fun _ _ _ _ _ => ⟨0, 0, 0, 0⟩)
        (fun _ => some ⟨4, 4, fun _ _ => ⟨1, 2, 3, 255⟩⟩)
        ⟨"b.png", true, 0⟩).writes :=
  c8_deterministic (fun _ _ _ _ _ => ⟨0, 0, 0, 0⟩)
    (fun _ => some ⟨4, 4, fun _ _ => ⟨1, 2, 3, 255⟩⟩)
    (fun _ => some ⟨4, 4, fun _ _ => ⟨1, 2, 3, 255⟩⟩)
    ⟨"a.png", true, 0⟩ ⟨"b.png", true, 0⟩ rfl rfl rfl

/-- C9: a negative explicit radius behaves exactly like radius 0: the
whole run is unchanged when the radius is replaced by 0 (the positive
test on the explicit radius fails, so the derived 20 percent radius is
used at every size), and apply_rounded returns its input unchanged on
any nonpositive radius. -/
theorem c9_negative_radius_as_zero (K : Resample) (fs : String → Option Img)
    (a : Args) (h : a.radius ≤ 0) :
    run K fs a = run K fs ⟨a.src, a.rounded, 0⟩ ∧
    ∀ im : Img, applyRounded im a.radius = im := by
  constructor
  · unfold run
    cases hfs : fs a.src with
    | none => rfl
    | some img0 =>
        have he : ∀ s, effRadius a.radius s = effRadius 0 s :=
          effRadius_nonpos a.radius h
        simp only [writesFor, finalCanvas, processSize, he]
  · intro im
    unfold applyRounded
    rw [if_pos h]

/-- Witness for C9 at radius -3 with rounding requested. -/
theorem c9_negative_radius_as_zero_witness :
    run (fun _ _ _ _ _ => ⟨0, 0, 0, 0⟩)
        (fun _ => some ⟨4, 4, fun _ _ => ⟨1, 2, 3, 255⟩⟩)
        ⟨"a.png", true, -3⟩ =
      run (fun _ _ _ _ _ => ⟨0, 0, 0, 0⟩)
        (fun _ => some ⟨4, 4, fun _ _ => ⟨1, 2, 3, 255⟩⟩)
        ⟨"a.png", true, 0⟩ ∧
    ∀ im : Img, applyRounded im (-3) = im :=
  c9_negative_radius_as_zero (fun _ _ _ _ _ => ⟨0, 0, 0, 0⟩)
    (fun _ => some ⟨4, 4, fun _ _ => ⟨1, 2, 3, 255⟩⟩)
    ⟨"a.png", true, -3⟩ (by decide)

/-- C10: without the switch named rounded, the radius argument has no
effect at all: the two runs are equal as whole observable outcomes. -/
theorem c10_radius_ignored_without_rounded (K : Resample)
    (fs : String → Option Img) (src : String) (r1 r2 : ℤ) :
    run K fs ⟨src, false, r1⟩ = run K fs ⟨src, false, r2⟩ := by
  unfold run
  cases fs src with
  | none => rfl
  | some img0 => simp only [writesFor, finalCanvas, processSize, Bool.false_eq_true,
      if_false]

/-- C6: for a positive radius, apply_rounded keeps the dimensions and
the color bands of its argument, replaces the alpha band by the
rounded-rectangle mask regardless of the alpha the argument had
(overwriting, never multiplying), and, being a pure transform of a
copy, leaves the argument itself unchanged. -/
theorem c6_mask_overwrites_alpha (im : Img) (rad : ℤ) (h : 0 < rad)
    (i j : Nat) (f : Nat → Nat → Nat) :
    (applyRounded im rad).width = im.width ∧
    (applyRounded im rad).height = im.height ∧
    ((applyRounded im rad).px i j).r = (im.px i j).r ∧
    ((applyRounded im rad).px i j).g = (im.px i j).g ∧
    ((applyRounded im rad).px i j).b = (im.px i j).b ∧
    ((applyRounded im rad).px i j).a = roundedMask im.width im.height rad.toNat i j ∧
    ((applyRounded (setAlpha im f) rad).px i j).a = ((applyRounded im rad).px i j).a := by
  have hn : ¬ rad ≤ 0 := not_le.mpr h
  unfold applyRounded setAlpha
  rw [if_neg hn, if_neg hn]
  exact ⟨rfl, rfl, rfl, rfl, rfl, rfl, rfl⟩

/-- Witness for C6 at a concrete image whose alpha is not the mask. -/
theorem c6_mask_overwrites_alpha_witness :
    (applyRounded ⟨8, 8, fun _ _ => ⟨1, 2, 3, 200⟩⟩ 2).width = 8 ∧
    (applyRounded ⟨8, 8, fun _ _ => ⟨1, 2, 3, 200⟩⟩ 2).height = 8 ∧
    ((applyRounded ⟨8, 8, fun _ _ => ⟨1, 2, 3, 200⟩⟩ 2).px 0 0).r = 1 ∧
    ((applyRounded ⟨8, 8, fun _ _ => ⟨1, 2, 3, 200⟩⟩ 2).px 0 0).g = 2 ∧
    ((applyRounded ⟨8, 8, fun _ _ => ⟨1, 2, 3, 200⟩⟩ 2).px 0 0).b = 3 ∧
    ((applyRounded ⟨8, 8, fun _ _ => ⟨1, 2, 3, 200⟩⟩ 2).px 0 0).a =
      roundedMask 8 8 (Int.toNat 2) 0 0 ∧
    ((applyRounded (setAlpha ⟨8, 8, fun _ _ => ⟨1, 2, 3, 200⟩⟩ (fun _ _ => 7)) 2).px 0 0).a =
      ((applyRounded ⟨8, 8, fun _ _ => ⟨1, 2, 3, 200⟩⟩ 2).px 0 0).a :=
  c6_mask_overwrites_alpha ⟨8, 8, fun _ _ => ⟨1, 2, 3, 200⟩⟩ 2 (by decide)
    0 0 (fun _ _ => 7)

end ConvertIcon
